import Mathlib

/-!
Shallow embedding of the rule-based system in `src/Lab.py` (the core logic:
`evaluate_rule`, `run_rules`, and the `OPERATORS` table), together with proofs
of the specified properties.

Modelling decisions:
* A JSON-like scalar (the values appearing in fact sets and in condition
  triples) is the tagged union `Value` over integers, floating-point numbers,
  strings and booleans.  Python floats are modelled as exact rationals `ℚ`;
  every numeric comparison in the claims is far from the precision boundary of
  IEEE doubles, so the rational model agrees with the Python behaviour there.
* A fact set (a Python `dict` with string keys) is an association list
  `List (String × Value)` read through `List.lookup`.
* A condition (a JSON array) is a `List Value` of arbitrary length; the code's
  arity check `len(cond) != 3` is modelled on the list length.
* Python's `bool` is a subclass of `int`, so `isinstance(v, (int, float))` is
  true for booleans and `float(True) = 1.0`, `float(False) = 0.0`; the model
  reproduces this in `isNumericV` and `pyFloat`.
* `float(s)` on a string is modelled by `pyFloatOfString`, a parser for finite
  decimal literals (optional surrounding whitespace, optional sign, digits with
  an optional fractional part and an optional decimal exponent).  The special
  forms `inf`/`nan` and digit-group underscores are not modelled (they parse to
  `none`); no claim depends on them.
* Python comparison semantics are modelled by `pyCompare`: `==`/`!=` never
  raise (cross-type number/string compares unequal, numbers compare by value,
  `True == 1` holds), while the four order operators raise (`none`) unless both
  operands are numbers or both are strings.
* Exception handling (`try`/`except`) becomes the `Option` results of
  `pyFloat`/`pyCompare`, collapsed to `false` exactly where the source catches.
-/

namespace Lab

/-- A JSON-like scalar value: the payload type of facts and of the elements of
a condition triple.  Python `float` is modelled as `ℚ`. -/
inductive Value where
  | int (n : Int)
  | float (q : ℚ)
  | str (s : String)
  | bool (b : Bool)
deriving DecidableEq

/-- A fact set: Python dict with string keys, read through `List.lookup`. -/
abbrev Facts := List (String × Value)

/-- A condition as it appears in a rule's `conditions` array: a JSON array of
scalars, of arbitrary length (the code checks `len(cond) != 3` itself). -/
abbrev Cond := List Value

/-- The `action` payload of a rule (`{"decision": ..., "reason": ...}`),
carried through unevaluated by the engine. -/
structure RuleAction where
  decision : Option String
  reason : Option String
deriving DecidableEq

/-- A rule record.  Every field is optional, mirroring the defensive
`rule.get(...)` accesses in the source: `priority` defaults to `0` and
`conditions` to `[]` when absent. -/
structure Rule where
  name : Option String
  priority : Option Int
  conditions : Option (List Cond)
  action : Option RuleAction
deriving DecidableEq

/-- The six comparison operators of the `OPERATORS` table in `Lab.py`. -/
inductive OpKind where
  | eq | ne | ge | le | gt | lt
deriving DecidableEq

/-- `OPERATORS[op]`: dictionary lookup of the operator value; `none` models the
`KeyError` raised when `op` is not one of the six supported operator
strings. -/
def lookupOp : Value → Option OpKind
  | .str "==" => some .eq
  | .str "!=" => some .ne
  | .str ">=" => some .ge
  | .str "<=" => some .le
  | .str ">" => some .gt
  | .str "<" => some .lt
  | _ => none

/-- `isinstance(v, (int, float))` in Python: true for integers and floats, and
also for booleans, because `bool` is a subclass of `int`. -/
def isNumericV : Value → Bool
  | .int _ => true
  | .float _ => true
  | .bool _ => true
  | .str _ => false

/-- The numeric value of a number-like scalar (used where Python compares
numbers of different types by value); `0` on strings, which no caller hits. -/
def numQ : Value → ℚ
  | .int n => (n : ℚ)
  | .float q => q
  | .bool b => if b then 1 else 0
  | .str _ => 0

/-- Characters stripped by Python's `float(str)` (ASCII whitespace). -/
def isPyWhitespace (c : Char) : Bool :=
  c = ' ' || c = '\t' || c = '\n' || c = '\r' || c = '\x0b' || c = '\x0c'

/-- Decimal digit string to a natural number. -/
def digitsToNat (cs : List Char) : Nat :=
  cs.foldl (fun a c => 10 * a + (c.toNat - '0'.toNat)) 0

/-- The exponent suffix of a float literal: an optional sign followed by a
non-empty digit string ending the input; returns the signed decimal
exponent. -/
def parseExpPart (cs : List Char) : Option Int :=
  let (eneg, cs1) : Bool × List Char :=
    match cs with
    | '+' :: r => (false, r)
    | '-' :: r => (true, r)
    | r => (false, r)
  let (ds, rest) := cs1.span (fun c => c.isDigit)
  if ds.isEmpty || !rest.isEmpty then none
  else
    let e : Int := digitsToNat ds
    some (if eneg then -e else e)

/-- Python's `float(s)` on a string, restricted to finite decimal literals:
optional surrounding whitespace, optional sign, `digits[.digits]` or `.digits`,
optional `e`/`E` exponent.  The forms `inf`/`infinity`/`nan` and underscore
digit separators are not modelled and yield `none`.  The value of the literal
`±D.F e±E` is the exact rational `±(DF) * 10^(E - len F)`, assembled with
integer arithmetic and one `mkRat`. -/
def pyFloatOfString (s : String) : Option ℚ :=
  let cs0 := ((s.data.dropWhile isPyWhitespace).reverse.dropWhile isPyWhitespace).reverse
  let (neg, cs1) : Bool × List Char :=
    match cs0 with
    | '+' :: r => (false, r)
    | '-' :: r => (true, r)
    | r => (false, r)
  let (ip, rest1) := cs1.span (fun c => c.isDigit)
  let (fp, rest2) : List Char × List Char :=
    match rest1 with
    | '.' :: r => r.span (fun c => c.isDigit)
    | r => ([], r)
  if ip.isEmpty && fp.isEmpty then none
  else
    let expo : Option Int :=
      match rest2 with
      | [] => some 0
      | 'e' :: r => parseExpPart r
      | 'E' :: r => parseExpPart r
      | _ => none
    match expo with
    | none => none
    | some e =>
      let mantNat : Nat := digitsToNat ip * 10 ^ fp.length + digitsToNat fp
      let mant : Int := if neg then -(mantNat : Int) else (mantNat : Int)
      let e1 : Int := e - fp.length
      if 0 ≤ e1 then some (mkRat (mant * 10 ^ e1.toNat) 1)
      else some (mkRat mant (10 ^ (-e1).toNat))

/-- Python's `float(v)` applied to a scalar: exact on numbers, `1.0`/`0.0` on
booleans, string parsing on strings; `none` models a raised
`ValueError`/`TypeError`. -/
def pyFloat : Value → Option ℚ
  | .int n => some (n : ℚ)
  | .float q => some q
  | .bool b => some (if b then 1 else 0)
  | .str s => pyFloatOfString s

/-- One of the six operators applied to two floats. -/
def applyCmpQ : OpKind → ℚ → ℚ → Bool
  | .eq, a, b => decide (a = b)
  | .ne, a, b => decide (a ≠ b)
  | .ge, a, b => decide (b ≤ a)
  | .le, a, b => decide (a ≤ b)
  | .gt, a, b => decide (b < a)
  | .lt, a, b => decide (a < b)

/-- Python `==` on two scalars: numbers (including booleans) compare by value,
strings compare as strings, a string never equals a number.  Never raises. -/
def pyEq : Value → Value → Bool
  | .str s, .str t => s = t
  | .str _, _ => false
  | _, .str _ => false
  | a, b => decide (numQ a = numQ b)

/-- One of the six operators applied to two strings (Python's lexicographic
code-point order). -/
def strCmp : OpKind → String → String → Bool
  | .eq, s, t => decide (s = t)
  | .ne, s, t => decide (s ≠ t)
  | .ge, s, t => decide (t ≤ s)
  | .le, s, t => decide (s ≤ t)
  | .gt, s, t => decide (t < s)
  | .lt, s, t => decide (s < t)

/-- Python's order comparison on two scalars: defined when both are numbers or
both are strings, otherwise it raises `TypeError` (`none`). -/
def pyOrdCmp (k : OpKind) : Value → Value → Option Bool
  | .str s, .str t => some (strCmp k s t)
  | a, b => if isNumericV a && isNumericV b then some (applyCmpQ k (numQ a) (numQ b)) else none

/-- `OPERATORS[op](a, b)` on the original (unconverted) operands: `==`/`!=`
never raise, the order operators raise (`none`) on mixed string/number
operands. -/
def pyCompare (k : OpKind) (a b : Value) : Option Bool :=
  match k with
  | .eq => some (pyEq a b)
  | .ne => some (!pyEq a b)
  | _ => pyOrdCmp k a b

/-- The fallback branch `OPERATORS[op](left, value)` under the outer
`try`/`except`: an unknown operator (`KeyError`) or a raising comparison
(`TypeError`) collapses to `false`. -/
def directCompare (op left value : Value) : Bool :=
  match lookupOp op with
  | some k => (pyCompare k left value).getD false
  | none => false

/-- The body of `evaluate_rule`'s loop for a single condition (the
ConditionEvaluator of the spec): arity check, field lookup, numeric-coercion
branch, direct-comparison fallback, all failures collapsing to `false`. -/
def satisfies (cond : Cond) (facts : Facts) : Bool :=
  match cond with
  | [field, op, value] =>
    match field with
    | .str f =>
      match facts.lookup f with
      | none => false
      | some left =>
        if isNumericV value || isNumericV left then
          match pyFloat left, pyFloat value with
          | some l, some r =>
            match lookupOp op with
            | some k => applyCmpQ k l r
            | none => false
          | _, _ => directCompare op left value
        else directCompare op left value
    | _ => false
  | _ => false

/-- `evaluate_rule(rule, facts)`: true iff every condition in
`rule.get("conditions", [])` is satisfied (the early-returning loop of a pure
predicate is its conjunction). -/
def evaluate_rule (rule : Rule) (facts : Facts) : Bool :=
  (rule.conditions.getD []).all (fun c => satisfies c facts)

/-- The sort key `r.get("priority", 0)`. -/
def rulePriority (r : Rule) : Int :=
  r.priority.getD 0

/-- Insert a rule into a priority-descending list, after every rule of strictly
higher priority and before the first rule of lower-or-equal priority; the
building block of the stable descending sort. -/
def insertDesc (x : Rule) : List Rule → List Rule
  | [] => [x]
  | y :: ys => if rulePriority x < rulePriority y then y :: insertDesc x ys else x :: y :: ys

/-- `sorted(rules, key=lambda r: r.get("priority", 0), reverse=True)`: the
stable priority-descending sort (insertion sort from the right, so an element
is placed before every equal-priority element that came later in the input). -/
def sortDesc : List Rule → List Rule
  | [] => []
  | x :: xs => insertDesc x (sortDesc xs)

/-- `run_rules(rules, facts)`: sort by priority descending, then keep the
matching rules in that order. -/
def run_rules (rules : List Rule) (facts : Facts) : List Rule :=
  (sortDesc rules).filter (fun r => evaluate_rule r facts)

/-- The state visible to one evaluation: the input rule list and fact dict
(the only data `run_rules` could mutate). -/
structure EvalState where
  rules : List Rule
  facts : Facts
deriving DecidableEq

/-- The matching loop of `run_rules` in explicit state-passing form: each
iteration reads the state (the fact dict) and threads it unchanged; the source
loop appends only to the local `matched` list. -/
def matchLoopS : List Rule → EvalState → List Rule × EvalState
  | [], st => ([], st)
  | r :: rs, st =>
    let b := evaluate_rule r st.facts
    let (rest, st1) := matchLoopS rs st
    (if b then r :: rest else rest, st1)

/-- `run_rules` in explicit state-passing form: the returned state is the rule
list and fact dict after the call. -/
def run_rulesS (st : EvalState) : List Rule × EvalState :=
  matchLoopS (sortDesc st.rules) st

/-! ### Helper lemmas about `satisfies` -/

theorem satisfies_of_length_ne_three (cond : Cond) (facts : Facts)
    (h : cond.length ≠ 3) : satisfies cond facts = false := by
  match cond with
  | [] => rfl
  | [_] => rfl
  | [_, _] => rfl
  | [_, _, _] => simp at h
  | _ :: _ :: _ :: _ :: _ => rfl

theorem satisfies_of_field_not_str (field op v : Value) (facts : Facts)
    (h : ∀ s, field ≠ Value.str s) : satisfies [field, op, v] facts = false := by
  cases field with
  | str s => exact absurd rfl (h s)
  | int n => rfl
  | float q => rfl
  | bool b => rfl

theorem satisfies_of_lookup_none (f : String) (op v : Value) (facts : Facts)
    (h : facts.lookup f = none) : satisfies [Value.str f, op, v] facts = false := by
  simp [satisfies, h]

theorem satisfies_of_lookupOp_none (field op v : Value) (facts : Facts)
    (h : lookupOp op = none) : satisfies [field, op, v] facts = false := by
  cases field with
  | int n => rfl
  | float q => rfl
  | bool b => rfl
  | str f =>
    simp only [satisfies]
    cases hl : facts.lookup f with
    | none => rfl
    | some left =>
      simp only [directCompare, h]
      split
      · cases hL : pyFloat left <;> cases hV : pyFloat v <;> simp [directCompare, h]
      · rfl

theorem satisfies_numeric (f : String) (op v left : Value) (facts : Facts)
    (k : OpKind) (l r : ℚ)
    (hl : facts.lookup f = some left) (hop : lookupOp op = some k)
    (hnum : (isNumericV v || isNumericV left) = true)
    (hL : pyFloat left = some l) (hR : pyFloat v = some r) :
    satisfies [Value.str f, op, v] facts = applyCmpQ k l r := by
  simp [satisfies, hl, hnum, hL, hR, hop]

theorem satisfies_fallback (f : String) (op v left : Value) (facts : Facts)
    (hl : facts.lookup f = some left)
    (hfail : pyFloat left = none ∨ pyFloat v = none) :
    satisfies [Value.str f, op, v] facts = directCompare op left v := by
  simp only [satisfies, hl]
  split
  · rcases hfail with h | h <;>
      cases hL : pyFloat left <;> cases hV : pyFloat v <;> simp_all
  · rfl

theorem satisfies_not_numeric (f : String) (op v left : Value) (facts : Facts)
    (hl : facts.lookup f = some left)
    (hnum : (isNumericV v || isNumericV left) = false) :
    satisfies [Value.str f, op, v] facts = directCompare op left v := by
  simp [satisfies, hl, hnum]

/-! ### Helper lemmas about the stable descending sort -/

theorem insertDesc_perm (x : Rule) : ∀ l : List Rule,
    List.Perm (insertDesc x l) (x :: l)
  | [] => List.Perm.refl _
  | y :: ys => by
    simp only [insertDesc]
    split
    · exact ((insertDesc_perm x ys).cons y).trans (List.Perm.swap x y ys)
    · exact List.Perm.refl _

theorem sortDesc_perm : ∀ l : List Rule, List.Perm (sortDesc l) l
  | [] => List.Perm.refl _
  | x :: xs => (insertDesc_perm x (sortDesc xs)).trans ((sortDesc_perm xs).cons x)

theorem insertDesc_pairwise (x : Rule) : ∀ l : List Rule,
    l.Pairwise (fun a b => rulePriority b ≤ rulePriority a) →
    (insertDesc x l).Pairwise (fun a b => rulePriority b ≤ rulePriority a)
  | [], _ => List.pairwise_singleton _ _
  | y :: ys, h => by
    rcases List.pairwise_cons.1 h with ⟨hy, hys⟩
    simp only [insertDesc]
    split
    · refine List.pairwise_cons.2 ⟨?_, insertDesc_pairwise x ys hys⟩
      intro z hz
      rcases List.mem_cons.1 ((insertDesc_perm x ys).mem_iff.1 hz) with hz | hz
      · subst hz; omega
      · exact hy z hz
    · refine List.pairwise_cons.2 ⟨?_, h⟩
      intro z hz
      rcases List.mem_cons.1 hz with hz | hz
      · subst hz; omega
      · have := hy z hz; omega

theorem sortDesc_pairwise : ∀ l : List Rule,
    (sortDesc l).Pairwise (fun a b => rulePriority b ≤ rulePriority a)
  | [] => List.Pairwise.nil
  | x :: xs => insertDesc_pairwise x (sortDesc xs) (sortDesc_pairwise xs)

theorem filter_insertDesc (p : Int) (x : Rule) : ∀ l : List Rule,
    (insertDesc x l).filter (fun r => decide (rulePriority r = p)) =
      if rulePriority x = p then
        x :: l.filter (fun r => decide (rulePriority r = p))
      else l.filter (fun r => decide (rulePriority r = p))
  | [] => by by_cases hx : rulePriority x = p <;> simp [insertDesc, hx]
  | y :: ys => by
    simp only [insertDesc]
    split
    · rename_i hlt
      rw [List.filter_cons, List.filter_cons, filter_insertDesc p x ys]
      by_cases hx : rulePriority x = p
      · have hy : ¬ rulePriority y = p := by omega
        simp [hx, hy]
      · simp [hx]
    · rw [List.filter_cons]
      by_cases hx : rulePriority x = p <;> simp [hx]

theorem sortDesc_filter_key (p : Int) : ∀ l : List Rule,
    (sortDesc l).filter (fun r => decide (rulePriority r = p)) =
      l.filter (fun r => decide (rulePriority r = p))
  | [] => rfl
  | x :: xs => by
    rw [sortDesc, filter_insertDesc p x (sortDesc xs), sortDesc_filter_key p xs,
      List.filter_cons]
    simp

/-! ### Helper lemma about the state-passing form -/

theorem matchLoopS_eq : ∀ (l : List Rule) (st : EvalState),
    matchLoopS l st = (l.filter (fun r => evaluate_rule r st.facts), st)
  | [], _ => rfl
  | r :: rs, st => by
    simp only [matchLoopS, matchLoopS_eq rs st, List.filter_cons]

/-! ### Concrete rules and fact sets used in the spec's examples -/

/-- Rule A of the priority-ordering example: priority 1, no conditions. -/
def ruleA : Rule := ⟨some "A", some 1, some [], none⟩

/-- Rule B of the priority-ordering example: priority 5, no conditions. -/
def ruleB : Rule := ⟨some "B", some 5, some [], none⟩

/-- Rule C of the priority-ordering example: priority 5, no conditions,
listed after B and before A in the input. -/
def ruleC : Rule := ⟨some "C", some 5, some [], none⟩

/-- A rule with an unsatisfiable condition: its operator `"??"` is not in
`OPERATORS`, so the condition fails against every fact set. -/
def unsatRule : Rule :=
  ⟨some "U", none, some [[Value.str "x", Value.str "??", Value.int 1]], none⟩

/-- The rule R1 of the end-to-end example:
`{"name":"R1","priority":10,"conditions":[["cgpa",">=",3.5],
["family_income","<=",3000]],"action":{"decision":"AWARD","reason":"high
merit, low income"}}` (3.5 = `mkRat 7 2`). -/
def ruleR1 : Rule :=
  ⟨some "R1", some 10,
   some [[Value.str "cgpa", Value.str ">=", Value.float (mkRat 7 2)],
         [Value.str "family_income", Value.str "<=", Value.int 3000]],
   some ⟨some "AWARD", some "high merit, low income"⟩⟩

/-- The fact set of the end-to-end example:
`{"cgpa": 3.8, "family_income": 2000}` (3.8 = `mkRat 19 5`). -/
def factsC7 : Facts :=
  [("cgpa", Value.float (mkRat 19 5)), ("family_income", Value.int 2000)]

/-! ### The claims -/

/-- C1: condition evaluation fails closed and never raises.  A condition that
does not have exactly 3 elements evaluates to false; a condition whose field
is absent from the fact set (including a non-string field, which a
string-keyed dict never contains) evaluates to false; an operator outside
`OPERATORS` evaluates to false; a comparison that raises (modelled by
`pyCompare … = none`, reachable in the fallback, i.e. when the numeric path
is skipped or float conversion failed on a side) evaluates to false; and
every rule evaluation returns a definite boolean (the embedding is a total
`Bool`-valued function). -/
theorem C1_fail_closed (cond : Cond) (facts : Facts) :
    (cond.length ≠ 3 → satisfies cond facts = false)
    ∧ (∀ (f : String) (op v : Value), cond = [Value.str f, op, v] →
        facts.lookup f = none → satisfies cond facts = false)
    ∧ (∀ field op v : Value, cond = [field, op, v] →
        (∀ s : String, field ≠ Value.str s) → satisfies cond facts = false)
    ∧ (∀ field op v : Value, cond = [field, op, v] →
        lookupOp op = none → satisfies cond facts = false)
    ∧ (∀ (f : String) (op v left : Value) (k : OpKind),
        cond = [Value.str f, op, v] → facts.lookup f = some left →
        lookupOp op = some k →
        (pyFloat left = none ∨ pyFloat v = none) →
        pyCompare k left v = none →
        satisfies cond facts = false)
    ∧ (∀ rule : Rule,
        evaluate_rule rule facts = true ∨ evaluate_rule rule facts = false) := by
  refine ⟨fun h => satisfies_of_length_ne_three cond facts h, ?_, ?_, ?_, ?_, ?_⟩
  · intro f op v hc h; subst hc; exact satisfies_of_lookup_none f op v facts h
  · intro field op v hc h; subst hc; exact satisfies_of_field_not_str field op v facts h
  · intro field op v hc h; subst hc; exact satisfies_of_lookupOp_none field op v facts h
  · intro f op v left k hc hl hop hfail hcmp
    subst hc
    rw [satisfies_fallback f op v left facts hl hfail]
    simp [directCompare, hop, hcmp]
  · intro rule; cases h : evaluate_rule rule facts
    · exact Or.inr rfl
    · exact Or.inl rfl

/-- Witness for C1: concrete instances of each fail-closed clause — wrong
arity, absent field, non-string field, unknown operator, and a raising
comparison (numeric-looking condition against an unparsable string fact
under an order operator). -/
theorem C1_fail_closed_witness :
    satisfies [Value.int 1] [] = false
    ∧ satisfies [Value.str "x", Value.str "==", Value.int 1] [] = false
    ∧ satisfies [Value.int 7, Value.str "==", Value.int 1] [("x", Value.int 0)] = false
    ∧ satisfies [Value.str "x", Value.str "??", Value.int 1] [("x", Value.int 0)] = false
    ∧ satisfies [Value.str "x", Value.str ">", Value.int 1] [("x", Value.str "abc")] = false :=
  ⟨(C1_fail_closed [Value.int 1] []).1 (by decide),
   (C1_fail_closed _ []).2.1 "x" _ _ rfl (by decide),
   (C1_fail_closed _ _).2.2.1 _ _ _ rfl (by intro s h; cases h),
   (C1_fail_closed _ _).2.2.2.1 _ _ _ rfl (by decide),
   (C1_fail_closed _ _).2.2.2.2.1 "x" _ _ (Value.str "abc") OpKind.gt rfl (by decide)
     (by decide) (Or.inl (by decide)) (by decide)⟩

/-- C2: numeric coercion.  When the condition's literal value or the fact's
value is numeric (integer, float, or — per C9 — boolean) and both sides
convert to float, the condition is decided by the numeric comparison; when
either conversion fails, evaluation falls back to a direct comparison of the
original values under the same operator (`directCompare`, which collapses a
raising comparison to false).  In particular `["score", ">=", 50]` against
`{"score": "75"}` is true and against `{"score": "abc"}` is false. -/
theorem C2_numeric_coercion :
    (∀ (f : String) (op v left : Value) (facts : Facts) (k : OpKind) (l r : ℚ),
        facts.lookup f = some left → lookupOp op = some k →
        (isNumericV v || isNumericV left) = true →
        pyFloat left = some l → pyFloat v = some r →
        satisfies [Value.str f, op, v] facts = applyCmpQ k l r)
    ∧ (∀ (f : String) (op v left : Value) (facts : Facts),
        facts.lookup f = some left →
        (pyFloat left = none ∨ pyFloat v = none) →
        satisfies [Value.str f, op, v] facts = directCompare op left v)
    ∧ satisfies [Value.str "score", Value.str ">=", Value.int 50]
        [("score", Value.str "75")] = true
    ∧ satisfies [Value.str "score", Value.str ">=", Value.int 50]
        [("score", Value.str "abc")] = false := by
  refine ⟨?_, ?_, by decide, by decide⟩
  · intro f op v left facts k l r hl hop hnum hL hR
    exact satisfies_numeric f op v left facts k l r hl hop hnum hL hR
  · intro f op v left facts hl hfail
    exact satisfies_fallback f op v left facts hl hfail

/-- Witness for C2: the numeric clause applied to the spec's first example
(string fact "75" coerced and compared with `>=` against 50), and the
fallback clause applied to the "abc" example. -/
theorem C2_numeric_coercion_witness :
    satisfies [Value.str "score", Value.str ">=", Value.int 50]
        [("score", Value.str "75")] = applyCmpQ OpKind.ge 75 50
    ∧ satisfies [Value.str "score", Value.str ">=", Value.int 50]
        [("score", Value.str "abc")]
      = directCompare (Value.str ">=") (Value.str "abc") (Value.int 50) :=
  ⟨C2_numeric_coercion.1 "score" _ _ (Value.str "75") _ OpKind.ge 75 50
      rfl rfl rfl (by decide) rfl,
   C2_numeric_coercion.2.1 "score" _ (Value.int 50) (Value.str "abc") _
      rfl (Or.inl (by decide))⟩

/-- C3: `run_rules` is the filter of the stable priority-descending sort of
its input.  The sort key is `priority` with default 0 when absent; the sorted
list is a permutation of the input, pairwise descending in the key, and
stable (for every priority value, the subsequence of rules with that
priority is exactly the input's); the output is the filtered sub-sequence of
that sorted list (conjunct 1), not independently re-sorted; and on the
spec's example A(1), B(5), C(5) with input order [B, C, A] (C before A), all
matching, the result is [B, C, A]. -/
theorem C3_priority_sort :
    (∀ (rules : List Rule) (facts : Facts),
        run_rules rules facts = (sortDesc rules).filter (fun r => evaluate_rule r facts))
    ∧ (∀ r : Rule, r.priority = none → rulePriority r = 0)
    ∧ (∀ rules : List Rule, List.Perm (sortDesc rules) rules)
    ∧ (∀ rules : List Rule,
        (sortDesc rules).Pairwise (fun a b => rulePriority b ≤ rulePriority a))
    ∧ (∀ (rules : List Rule) (p : Int),
        (sortDesc rules).filter (fun r => decide (rulePriority r = p)) =
          rules.filter (fun r => decide (rulePriority r = p)))
    ∧ run_rules [ruleB, ruleC, ruleA] [] = [ruleB, ruleC, ruleA] := by
  refine ⟨fun _ _ => rfl, ?_, sortDesc_perm, sortDesc_pairwise,
    fun rules p => sortDesc_filter_key p rules, ?_⟩
  · intro r h; simp [rulePriority, h]
  · decide

/-- Witness for C3: the default-priority clause applied to a rule with no
explicit priority. -/
theorem C3_priority_sort_witness :
    rulePriority ⟨some "W", none, none, none⟩ = 0 :=
  C3_priority_sort.2.1 ⟨some "W", none, none, none⟩ rfl

/-- C4: a rule is in the output of `run_rules` iff it is one of the input
rules and every condition in its condition list is satisfied (conjunction);
all rules are evaluated and every matching rule is returned, so the
membership characterisation is an iff quantifying over all rules. -/
theorem C4_conjunction_and_all_matches (rules : List Rule) (facts : Facts) (r : Rule) :
    (r ∈ run_rules rules facts ↔ r ∈ rules ∧ evaluate_rule r facts = true)
    ∧ (evaluate_rule r facts = true ↔
        ∀ c ∈ r.conditions.getD [], satisfies c facts = true) := by
  constructor
  · rw [run_rules, List.mem_filter, (sortDesc_perm rules).mem_iff]
  · simp [evaluate_rule]

/-- C5: a rule with an empty conditions list matches every fact set, and a
rule with no conditions key at all is treated the same way (vacuous AND). -/
theorem C5_vacuous_match (r : Rule) (facts : Facts)
    (h : r.conditions = none ∨ r.conditions = some []) :
    evaluate_rule r facts = true := by
  rcases h with h | h <;> simp [evaluate_rule, h]

/-- Witness for C5: a rule with no conditions key and a rule with an empty
conditions list both match a concrete fact set. -/
theorem C5_vacuous_match_witness :
    evaluate_rule ⟨some "R", none, none, none⟩ [("x", Value.int 1)] = true
    ∧ evaluate_rule ⟨some "S", none, some [], none⟩ [] = true :=
  ⟨C5_vacuous_match _ _ (Or.inl rfl), C5_vacuous_match _ _ (Or.inr rfl)⟩

/-- C6: `run_rules` returns an empty sequence (not an error) on an empty rule
set, and whenever no rule matches; in particular a single rule with an
unsatisfiable condition (unsupported operator `"??"`) yields the empty
sequence against every fact set. -/
theorem C6_empty_result :
    (∀ facts : Facts, run_rules [] facts = [])
    ∧ (∀ (rules : List Rule) (facts : Facts),
        (∀ r ∈ rules, evaluate_rule r facts = false) → run_rules rules facts = [])
    ∧ (∀ facts : Facts, run_rules [unsatRule] facts = []) := by
  refine ⟨fun _ => rfl, ?_, ?_⟩
  · intro rules facts h
    rw [run_rules, List.filter_eq_nil_iff]
    intro r hr
    simp [h r ((sortDesc_perm rules).mem_iff.1 hr)]
  · intro facts
    have hu : evaluate_rule unsatRule facts = false := by
      have hs := satisfies_of_lookupOp_none (Value.str "x") (Value.str "??")
        (Value.int 1) facts rfl
      simp [evaluate_rule, unsatRule, hs]
    simp [run_rules, sortDesc, insertDesc, hu]

/-- Witness for C6: the no-match clause applied to the concrete singleton
rule set `[unsatRule]` and a concrete fact set. -/
theorem C6_empty_result_witness :
    run_rules [] [("a", Value.int 1)] = []
    ∧ run_rules [unsatRule] [("x", Value.int 0)] = [] :=
  ⟨C6_empty_result.1 [("a", Value.int 1)],
   C6_empty_result.2.1 [unsatRule] [("x", Value.int 0)] (by decide)⟩

/-- C7: end-to-end example.  For facts `{"cgpa": 3.8, "family_income": 2000}`
and the single rule R1 with conditions `cgpa >= 3.5` and
`family_income <= 3000`, `run_rules` returns exactly `[R1]`, whose action
decision is "AWARD"; the `mkRat` encodings used in `ruleR1`/`factsC7` are
the decimal numbers 3.5 and 3.8 of the spec. -/
theorem C7_end_to_end :
    run_rules [ruleR1] factsC7 = [ruleR1]
    ∧ (ruleR1.action.getD ⟨none, none⟩).decision = some "AWARD"
    ∧ (mkRat 19 5 : ℚ) = 3.8 ∧ (mkRat 7 2 : ℚ) = 3.5 := by
  refine ⟨by decide, rfl, ?_, ?_⟩ <;> rw [Rat.mkRat_eq_div] <;> norm_num

/-- C8: evaluation mutates nothing.  In the explicit state-passing form of
`run_rules` (the state being the input rule list and fact dict — the only
data the call could mutate), the final state equals the initial state, and
the computed result is the pure `run_rules` of the initial state; in
particular evaluation is deterministic and reads no hidden mutable state. -/
theorem C8_no_mutation (st : EvalState) :
    run_rulesS st = (run_rules st.rules st.facts, st) := by
  rw [run_rulesS, matchLoopS_eq, run_rules]

/-- C9: booleans count as numeric.  `isinstance(b, (int, float))` holds for
booleans, `float(True) = 1.0` and `float(False) = 0.0`, so a boolean on
either side triggers the numeric path: when the fact's value converts to a
float, a boolean condition literal is compared numerically as 1 or 0; in
particular `["flag", "==", true]` holds against `{"flag": 1.0}` and
`["flag", ">", false]` holds against `{"flag": 1}`. -/
theorem C9_bool_numeric :
    (∀ b : Bool, isNumericV (Value.bool b) = true)
    ∧ pyFloat (Value.bool true) = some 1
    ∧ pyFloat (Value.bool false) = some 0
    ∧ (∀ (f : String) (op : Value) (b : Bool) (x : Value) (facts : Facts)
        (k : OpKind) (q : ℚ),
        facts.lookup f = some x → lookupOp op = some k → pyFloat x = some q →
        satisfies [Value.str f, op, Value.bool b] facts
          = applyCmpQ k q (if b then 1 else 0))
    ∧ satisfies [Value.str "flag", Value.str "==", Value.bool true]
        [("flag", Value.float (mkRat 1 1))] = true
    ∧ satisfies [Value.str "flag", Value.str ">", Value.bool false]
        [("flag", Value.int 1)] = true := by
  refine ⟨fun b => rfl, rfl, rfl, ?_, by decide, by decide⟩
  intro f op b x facts k q hl hop hq
  exact satisfies_numeric f op (Value.bool b) x facts k q (if b then 1 else 0)
    hl hop (by cases b <;> rfl) hq (by cases b <;> rfl)

/-- Witness for C9: the numeric-path clause applied to a concrete boolean
condition literal against an integer fact; the resulting numeric comparison
`0 <= 1` makes the condition hold. -/
theorem C9_bool_numeric_witness :
    satisfies [Value.str "b", Value.str "<=", Value.bool true]
      [("b", Value.int 0)] = true := by
  have h := C9_bool_numeric.2.2.2.1 "b" (Value.str "<=") true (Value.int 0)
    [("b", Value.int 0)] OpKind.le ((0 : Int) : ℚ) rfl rfl rfl
  rw [h]; decide

/-- C10: the output of `run_rules` is a sub-multiset of the input rule set:
every returned rule is one of the input rule records (passed through
unmodified — list elements are values, never rebuilt), each with output
multiplicity at most its input multiplicity; when the input has no duplicate
records, no rule appears twice in the output. -/
theorem C10_output_submultiset (rules : List Rule) (facts : Facts) :
    (∀ r : Rule, (run_rules rules facts).count r ≤ rules.count r)
    ∧ (∀ r ∈ run_rules rules facts, r ∈ rules)
    ∧ (rules.Nodup → (run_rules rules facts).Nodup) := by
  refine ⟨?_, ?_, ?_⟩
  · intro r
    calc (run_rules rules facts).count r
        ≤ (sortDesc rules).count r :=
          (List.filter_sublist (sortDesc rules)).count_le r
      _ = rules.count r := (sortDesc_perm rules).count_eq r
  · intro r hr
    exact (sortDesc_perm rules).mem_iff.1 (List.mem_filter.1 hr).1
  · intro h
    exact List.Nodup.filter _ ((sortDesc_perm rules).nodup_iff.2 h)

/-- Witness for C10: the no-duplication clause applied to a concrete
duplicate-free rule set. -/
theorem C10_output_submultiset_witness :
    (run_rules [⟨some "W", none, none, none⟩] [("x", Value.int 1)]).Nodup :=
  (C10_output_submultiset [⟨some "W", none, none, none⟩] [("x", Value.int 1)]).2.2
    (by decide)

end Lab
